import Mathlib

/-!
Verification of the Battleship-Simulator core against its specification.

The definitions below are shallow embeddings of the Python sources:
  * `SimulatorUtilities.py` — geometry helpers and the path follower
    `update_path_coordinates_with_angle`;
  * `BattleshipSystem.py` — the `Engine` and `Navigation` subsystems;
  * `BattleshipModel.py` — attribute surface, system attachment and the
    per-tick collision flags.

Python floats are modelled as real numbers; a Python exception
(ZeroDivisionError, AttributeError, IndexError, KeyError) is modelled by
`Option`/`Except` error values.
-/

/-- A 2D point, as the Python `(x, y)` tuples. -/
abbrev Point := ℝ × ℝ

/-- Euclidean length of the segment from `p` to `q`:
`math.sqrt((q[0]-p[0])**2 + (q[1]-p[1])**2)` as in
`update_path_coordinates_with_angle`. -/
noncomputable def segLen (p q : Point) : ℝ :=
  Real.sqrt ((q.1 - p.1) ^ 2 + (q.2 - p.2) ^ 2)

/-- The C/Python `math.atan2 y x`, by the usual case split.  (Signed zeros
do not exist in `ℝ`, so the `x = 0` rows collapse to three cases.) -/
noncomputable def atan2 (y x : ℝ) : ℝ :=
  if 0 < x then Real.arctan (y / x)
  else if x < 0 ∧ 0 ≤ y then Real.arctan (y / x) + Real.pi
  else if x < 0 ∧ y < 0 then Real.arctan (y / x) - Real.pi
  else if x = 0 ∧ 0 < y then Real.pi / 2
  else if x = 0 ∧ y < 0 then -(Real.pi / 2)
  else 0

/-- Python `math.degrees`. -/
noncomputable def degOfRad (r : ℝ) : ℝ := r * 180 / Real.pi

/-- Python float `a % b`: `a - b * floor (a / b)` (the result carries the
sign of `b`). -/
noncomputable def rmod (a b : ℝ) : ℝ := a - b * ⌊a / b⌋

/-- `calculate_angle_degrees(x1, y1, x2, y2)` from `SimulatorUtilities.py`:
`(math.degrees(math.atan2(delta_y, delta_x)) - 90) % 360`. -/
noncomputable def calculate_angle_degrees (x1 y1 x2 y2 : ℝ) : ℝ :=
  rmod (degOfRad (atan2 (y2 - y1) (x2 - x1)) - 90) 360

/-- The `while` loop of `update_path_coordinates_with_angle`: while the
distance still to cover exceeds the current segment's length and more than
two points remain, pop the leading point and recompute the segment data.
Computing the direction vector of a freshly popped-to segment divides by
its length, so a zero-length segment there raises `ZeroDivisionError`
(modelled by `none`).  Returns the remaining path together with the
remaining distance to cover. -/
noncomputable def walk : List Point → ℝ → Option (List Point × ℝ)
  | p₀ :: p₁ :: r₀ :: rs, cover =>
    if cover > segLen p₀ p₁ then
      if segLen p₁ r₀ = 0 then none
      else walk (p₁ :: r₀ :: rs) (cover - segLen p₀ p₁)
    else some (p₀ :: p₁ :: r₀ :: rs, cover)
  | path, cover => some (path, cover)

/-- `update_path_coordinates_with_angle(path, speed, timedelta)` from
`SimulatorUtilities.py`.  `none` models a raised exception: an
`IndexError` when the path has fewer than two points, or a
`ZeroDivisionError` when a segment whose direction vector is computed has
length zero.  The facing angle is computed once, before the loop, from the
input path's first two points, as `math.degrees(math.atan2(dy, dx)) % 360`
— note: no `- 90` shift, and the loop never reassigns it.  After the loop
the source's `current_pos` / `next_waypoint` / `distance_to_next_waypoint`
variables are exactly the data of the remaining path's first segment, so
they are recomputed here from `walk`'s result. -/
noncomputable def update_path_coordinates_with_angle
    (path : List Point) (speed timedelta : ℝ) : Option (ℝ × ℝ × ℝ × List Point) :=
  match path with
  | current_pos :: next_waypoint :: rest =>
    let distance_to_cover := speed * timedelta
    if segLen current_pos next_waypoint = 0 then none
    else
      let facing_angle_degrees :=
        rmod (degOfRad (atan2 (next_waypoint.2 - current_pos.2)
          (next_waypoint.1 - current_pos.1))) 360
      match walk (current_pos :: next_waypoint :: rest) distance_to_cover with
      | none => none
      | some (q₀ :: q₁ :: rest', cover) =>
        let d := segLen q₀ q₁
        if (q₀ :: q₁ :: rest').length ≤ 2 ∧ cover ≥ d then
          some (q₀.1, q₀.2, facing_angle_degrees, [])
        else
          let new_x := q₀.1 + (q₁.1 - q₀.1) / d * cover
          let new_y := q₀.2 + (q₁.2 - q₀.2) / d * cover
          some (new_x, new_y, facing_angle_degrees, (new_x, new_y) :: q₁ :: rest')
      | some _ => none
  | _ => none

/-! ## Collision geometry (`BattleshipModel.py` with `shapely`)

Polygons are modelled by the plane region they enclose (`Set Point`);
`shapely`'s `Polygon(...).intersects` is nonempty region intersection, and
`Polygon(...).buffer(d)` is, per the docstring of
`calculate_min_safe_distance_area`, "the Minkowski sum of the input
polygon and a disk of a given radius".  `transform_coordinates` applies
the same translate-rotate-scale(1.0) map to a region; `update` passes the
identical `(self.x, self.y, self.angle)` arguments for the hull and the
safety-margin polygon, and the rotation origin (the polygon's own
bounding-box centre) agrees for the two because the Minkowski expansion
inflates the bounding box by the same amount on every side; the common
rigid map is therefore modelled as a single function `T` applied to
both regions. -/

/-- Minkowski expansion of a region by a closed disk of radius `d`:
`shapely` `buffer(d)` as documented in `calculate_min_safe_distance_area`. -/
def buffer (d : ℝ) (P : Set Point) : Set Point :=
  {q | ∃ p ∈ P, segLen p q ≤ d}

/-- `polygons_intersect` from `SimulatorUtilities.py`: the regions share at
least one point. -/
def polygons_intersect (P Q : Set Point) : Prop := (P ∩ Q).Nonempty

/-- `BattleshipModel.MINIMUM_SAFE_DISTANCE` (meters). -/
def MINIMUM_SAFE_DISTANCE : ℝ := 100

/-- `BattleshipModel.calculate_min_safe_distance_area`: the hull polygon
buffered outward by `MINIMUM_SAFE_DISTANCE`. -/
def calculate_min_safe_distance_area (hull : Set Point) : Set Point :=
  buffer MINIMUM_SAFE_DISTANCE hull

/-- The collision flags set by `BattleshipModel.update`: both start the
tick as `False`, and the loop over `world.obstacles` sets
`collision_warning` when the transformed minimum-safe-area polygon
intersects an obstacle and `collision_event` when the transformed hull
does, so after the loop each flag holds iff some obstacle triggered it.
`T` is the world-frame transform applied to both ship polygons. -/
def collision_flags (T : Point → Point) (hull : Set Point)
    (obstacles : List (Set Point)) : Prop × Prop :=
  ((∃ ob ∈ obstacles,
      polygons_intersect (T '' calculate_min_safe_distance_area hull) ob),
   (∃ ob ∈ obstacles, polygons_intersect (T '' hull) ob))

/-! ## Subsystems (`BattleshipSystem.py`) -/

/-- The `Engine` subsystem's fields, as created by `Engine.setup`. -/
structure Engine where
  min_speed : ℚ
  max_speed : ℚ
  acceleration : ℚ
  desired_speed : ℚ
deriving DecidableEq, Repr

/-- `Engine.setup`: `min_speed = 0`, `max_speed = 15`,
`acceleration = .5`, `desired_speed = 15`. -/
def Engine.setup : Engine := ⟨0, 15, 1/2, 15⟩

/-- The slice of the ship model that `Engine.update` reads and writes:
`model.current_speed` and `model.collision_event`. -/
structure ShipRef where
  current_speed : ℚ
  collision_event : Bool
deriving DecidableEq, Repr

/-- `Engine.update(timedelta)`: outside a collision event, move
`model.current_speed` toward `desired_speed` by
`min(acceleration * timedelta, abs(speed_difference))`; in a collision
event, force `model.current_speed = 0`. -/
def Engine.update (e : Engine) (m : ShipRef) (timedelta : ℚ) : ShipRef :=
  if ¬ m.collision_event then
    if m.current_speed ≠ e.desired_speed then
      let speed_difference := e.desired_speed - m.current_speed
      let acceleration_change := min (e.acceleration * timedelta) |speed_difference|
      if speed_difference > 0 then
        { m with current_speed := m.current_speed + acceleration_change }
      else
        { m with current_speed := m.current_speed - acceleration_change }
    else m
  else { m with current_speed := 0 }

/-- `Engine.set_speed(new_speed)`: update `desired_speed` only when
`min_speed <= new_speed <= max_speed`; otherwise do nothing. -/
def Engine.set_speed (e : Engine) (new_speed : ℚ) : Engine :=
  if e.min_speed ≤ new_speed ∧ new_speed ≤ e.max_speed then
    { e with desired_speed := new_speed }
  else e

/-- The `Navigation` subsystem's fields, as created by
`Navigation.setup`. -/
structure Navigation where
  waypoints : List (ℚ × ℚ)
  projected_path : List (ℚ × ℚ)
deriving DecidableEq, Repr

/-- `Navigation.setup`: both lists start empty. -/
def Navigation.setup : Navigation := ⟨[], []⟩

/-- `Navigation.add_waypoint(x, y)`: append `(x, y)` to `waypoints`. -/
def Navigation.add_waypoint (n : Navigation) (x y : ℚ) : Navigation :=
  { n with waypoints := n.waypoints ++ [(x, y)] }

/-- `Navigation.handle_command(command, *args)`: the `"ADD_WAYPOINT"`
branch invokes `self.set_waypoint(*args)`, but no class in the hierarchy
(`Navigation`, `BattleshipSystem`) defines a `set_waypoint` attribute —
the defined method is `add_waypoint` — so the dispatch raises
`AttributeError`, modelled by `none`.  Any other command prints a warning
and leaves the state unchanged. -/
def Navigation.handle_command (n : Navigation) (command : String)
    (_x _y : ℚ) : Option Navigation :=
  if command = "ADD_WAYPOINT" then none
  else some n

/-! ## Ship model (`BattleshipModel.py`) -/

/-- A subsystem object as seen by the ship model: its Python attributes
(field name to value) and its declared command tokens. -/
structure Subsystem where
  fields : List (String × ℚ)
  commands : List String
deriving DecidableEq, Repr

/-- The slice of `BattleshipModel` state that the attribute surface and
`attach_system` act on.  `attributes` is `some table` when the Python
object has an `attributes` attribute and `none` when it does not:
`__init__` never assigns `self.attributes` (the class docstring documents
it, but no code creates it). -/
structure ShipModel where
  systems : List (String × Subsystem)
  command_registry : List (String × String)
  attributes : Option (List (String × List (String × ℚ)))
deriving DecidableEq, Repr

/-- A freshly constructed `BattleshipModel`, after `__init__`/`setup`:
no systems, an empty command registry, and no `attributes` attribute. -/
def ShipModel.init : ShipModel := ⟨[], [], none⟩

/-- Store `value` under `attributes[system_name][attr_name]`, creating the
inner table when absent (the body of `set_attribute` once
`self.attributes` exists). -/
def storeAttr (tbl : List (String × List (String × ℚ)))
    (system_name attr_name : String) (value : ℚ) :
    List (String × List (String × ℚ)) :=
  match tbl.lookup system_name with
  | none => tbl ++ [(system_name, [(attr_name, value)])]
  | some inner =>
    tbl.map fun kv =>
      if kv.1 = system_name then (kv.1, inner ++ [(attr_name, value)]) else kv

/-- `BattleshipModel.set_attribute(system_name, attr_name, value)`: the
first statement reads `self.attributes`, which `__init__` never creates,
so on a model whose `attributes` is `none` the call raises
`AttributeError` (modelled by `none`); otherwise it writes into the
`attributes` table. -/
def ShipModel.set_attribute (m : ShipModel) (system_name attr_name : String)
    (value : ℚ) : Option ShipModel :=
  match m.attributes with
  | none => none
  | some tbl => some { m with attributes := some (storeAttr tbl system_name attr_name value) }

/-- `BattleshipModel.get_attribute(system_name, attr_name)`: returns
`getattr(self.systems[system_name], attr_name)` — it reads the subsystem
object's own field, not the `attributes` table that `set_attribute`
writes.  A missing system or field raises (`KeyError`/`AttributeError`),
modelled by `none`. -/
def ShipModel.get_attribute (m : ShipModel) (system_name attr_name : String) :
    Option ℚ :=
  (m.systems.lookup system_name).bind fun sys => sys.fields.lookup attr_name

/-- The command-registration loop of `attach_system`: for each declared
command, raise `KeyError` (modelled by `Except.error` carrying the
offending token) when the token is already in the registry, else register
it for `system_name`. -/
def register_commands (registry : List (String × String)) (system_name : String) :
    List String → Except String (List (String × String))
  | [] => Except.ok registry
  | c :: cs =>
    if (registry.lookup c).isSome then Except.error c
    else register_commands (registry ++ [(c, system_name)]) system_name cs

/-- `BattleshipModel.attach_system(system_name, system)`: store the system
object, then register every declared command, raising `KeyError` on a
token already present in `command_registry`.  (The source mutates the
registry in place, so registrations made before the raise persist; the
claims considered here do not depend on that partial state, and the model
returns only the error.) -/
def ShipModel.attach_system (m : ShipModel) (system_name : String)
    (system : Subsystem) : Except String ShipModel :=
  let m' := { m with systems := m.systems ++ [(system_name, system)] }
  match register_commands m'.command_registry system_name system.commands with
  | Except.error e => Except.error e
  | Except.ok reg => Except.ok { m' with command_registry := reg }

/-- Whether an `Except` computation ended in an error. -/
def isErr {ε α : Type} : Except ε α → Bool
  | Except.error _ => true
  | Except.ok _ => false

/-! ## Evaluation lemmas for the geometric primitives -/

theorem sqrt_hundred : Real.sqrt 100 = 10 := by
  rw [show (100 : ℝ) = 10 ^ 2 by norm_num, Real.sqrt_sq (by norm_num : (0:ℝ) ≤ 10)]

theorem segLen_self (p : Point) : segLen p p = 0 := by
  simp [segLen]

theorem segLen_east : segLen ((0:ℝ), (0:ℝ)) (10, 0) = 10 := by
  rw [segLen]; norm_num [sqrt_hundred]

/-- The same fact stated with the origin written as the zero of the
product, the form `simp`-normalization produces. -/
theorem segLen_east_zero : segLen (0 : Point) (10, 0) = 10 := segLen_east

theorem segLen_up : segLen ((10:ℝ), (0:ℝ)) (10, 10) = 10 := by
  rw [segLen]; norm_num [sqrt_hundred]

theorem segLen_north : segLen ((0:ℝ), (0:ℝ)) (0, 10) = 10 := by
  rw [segLen]; norm_num [sqrt_hundred]

theorem rmod_eq_self {a b : ℝ} (h0 : 0 ≤ a) (hab : a < b) : rmod a b = a := by
  have hb : 0 < b := lt_of_le_of_lt h0 hab
  have hf : ⌊a / b⌋ = 0 := by
    rw [Int.floor_eq_zero_iff]
    exact ⟨div_nonneg h0 hb.le, (div_lt_one hb).mpr hab⟩
  simp [rmod, hf]

theorem atan2_zero_of_pos {x : ℝ} (hx : 0 < x) : atan2 0 x = 0 := by
  rw [atan2, if_pos hx, zero_div, Real.arctan_zero]

theorem atan2_pos_zero {y : ℝ} (hy : 0 < y) : atan2 y 0 = Real.pi / 2 := by
  rw [atan2, if_neg (lt_irrefl 0), if_neg (fun h => lt_irrefl 0 h.1),
    if_neg (fun h => lt_irrefl 0 h.1), if_pos ⟨rfl, hy⟩]

theorem degOfRad_zero : degOfRad 0 = 0 := by
  simp [degOfRad]

theorem degOfRad_pi_div_two : degOfRad (Real.pi / 2) = 90 := by
  rw [degOfRad]
  field_simp
  ring

/-- Bearing of the eastward direction in the source's (unshifted)
convention. -/
theorem angle_east : rmod (degOfRad (atan2 (0:ℝ) 10)) 360 = 0 := by
  rw [atan2_zero_of_pos (by norm_num : (0:ℝ) < 10), degOfRad_zero]
  exact rmod_eq_self le_rfl (by norm_num)

/-- Bearing of the northward direction in the source's (unshifted)
convention. -/
theorem angle_north : rmod (degOfRad (atan2 (10:ℝ) 0)) 360 = 90 := by
  rw [atan2_pos_zero (by norm_num : (0:ℝ) < 10), degOfRad_pi_div_two]
  exact rmod_eq_self (by norm_num) (by norm_num)

/-- Evaluation of the path follower on `[(0,0),(10,0)]`, speed 10, dt 1:
the covered distance equals the single segment's length, the termination
branch fires and returns `current_pos` — the point `(0,0)` — with an
empty path. -/
theorem updatePath_arrive_eval :
    update_path_coordinates_with_angle [((0:ℝ), (0:ℝ)), (10, 0)] 10 1 =
      some (0, 0, 0, []) := by
  simp only [update_path_coordinates_with_angle, walk, segLen_east]
  norm_num [angle_east]

/-- Evaluation of the path follower on `[(0,0),(10,0),(10,10)]`, speed
100, dt 1: the walk pops the first segment, the termination branch fires
on the remaining two-point path, and the returned position is `(10,0)` —
the start of the final segment — with an empty path. -/
theorem updatePath_carry_eval :
    update_path_coordinates_with_angle [((0:ℝ), (0:ℝ)), (10, 0), (10, 10)] 100 1 =
      some (10, 0, 0, []) := by
  simp only [update_path_coordinates_with_angle, walk, segLen_east, segLen_up]
  norm_num [angle_east, segLen_east, segLen_up]

/-- Evaluation of the path follower on `[(0,0),(0,10)]`, speed 1, dt 1:
a partial step along a northward segment; the returned facing angle is
`90` (the raw `atan2` degrees, no `- 90` shift). -/
theorem updatePath_vertical_eval :
    update_path_coordinates_with_angle [((0:ℝ), (0:ℝ)), (0, 10)] 1 1 =
      some (0, 1, 90, [(0, 1), (0, 10)]) := by
  simp only [update_path_coordinates_with_angle, walk, segLen_north]
  norm_num [angle_north]

/-- Evaluation of the path follower on the degenerate path
`[(0,0),(0,0)]`: the first segment has length zero and the direction
vector computation divides by zero (`ZeroDivisionError`). -/
theorem updatePath_zeroseg_eval :
    update_path_coordinates_with_angle [((0:ℝ), (0:ℝ)), (0, 0)] 1 1 = none := by
  simp [update_path_coordinates_with_angle, segLen_self]

/-- Evaluation of the path follower on `[(0,0),(10,0),(10,0),(10,10)]`,
speed 100, dt 1: the walk pops the first segment and then divides by the
zero length of the duplicated segment (`ZeroDivisionError`). -/
theorem updatePath_zeroseg_mid_eval :
    update_path_coordinates_with_angle
      [((0:ℝ), (0:ℝ)), (10, 0), (10, 0), (10, 10)] 100 1 = none := by
  simp only [update_path_coordinates_with_angle, walk, segLen_east, segLen_self]
  norm_num [segLen_east, segLen_self]

/-- `calculate_angle_degrees(0, 0, 0, 10)`: the spec's north-zero
clockwise-positive bearing of the northward direction is `0`. -/
theorem calculate_angle_degrees_north : calculate_angle_degrees 0 0 0 10 = 0 := by
  rw [calculate_angle_degrees, show ((10:ℝ) - 0) = 10 by norm_num,
    show ((0:ℝ) - 0) = 0 by norm_num,
    atan2_pos_zero (by norm_num : (0:ℝ) < 10), degOfRad_pi_div_two,
    show (90:ℝ) - 90 = 0 by norm_num]
  exact rmod_eq_self le_rfl (by norm_num)

/-! ## Claim theorems -/

/-- C2 (amended): whenever `update_path_coordinates_with_angle` returns a
result, its facing-angle component is `degrees(atan2(dy, dx)) % 360` for
`(dx, dy)` the direction of the *first* segment of the input path — with
no `- 90` shift and independent of which segments the walk consumed. -/
theorem c2_facing_angle_first_segment (p₀ p₁ : Point) (rest : List Point)
    (speed timedelta : ℝ) (x y θ : ℝ) (ps : List Point)
    (h : update_path_coordinates_with_angle (p₀ :: p₁ :: rest) speed timedelta =
      some (x, y, θ, ps)) :
    θ = rmod (degOfRad (atan2 (p₁.2 - p₀.2) (p₁.1 - p₀.1))) 360 := by
  simp only [update_path_coordinates_with_angle] at h
  split at h
  · cases h
  · split at h
    · cases h
    · split at h
      · simp only [Option.some.injEq, Prod.mk.injEq] at h
        exact h.2.2.1.symm
      · simp only [Option.some.injEq, Prod.mk.injEq] at h
        exact h.2.2.1.symm
    · cases h

/-- C9: whenever the walk stops with a remaining distance strictly less
than the current segment's length, the path follower returns the position
linearly interpolated along that segment's unit direction vector by the
leftover distance, and a path whose head is the interpolated position
followed by the untouched remaining waypoints. -/
theorem c9_partial_step (p₀ p₁ : Point) (rest : List Point)
    (speed timedelta : ℝ) (q₀ q₁ : Point) (rest' : List Point) (cover : ℝ)
    (_hspeed : 0 ≤ speed) (_hdt : 0 ≤ timedelta)
    (h0 : segLen p₀ p₁ ≠ 0)
    (hw : walk (p₀ :: p₁ :: rest) (speed * timedelta) = some (q₀ :: q₁ :: rest', cover))
    (hlt : cover < segLen q₀ q₁) :
    update_path_coordinates_with_angle (p₀ :: p₁ :: rest) speed timedelta =
      some (q₀.1 + (q₁.1 - q₀.1) / segLen q₀ q₁ * cover,
        q₀.2 + (q₁.2 - q₀.2) / segLen q₀ q₁ * cover,
        rmod (degOfRad (atan2 (p₁.2 - p₀.2) (p₁.1 - p₀.1))) 360,
        (q₀.1 + (q₁.1 - q₀.1) / segLen q₀ q₁ * cover,
         q₀.2 + (q₁.2 - q₀.2) / segLen q₀ q₁ * cover) :: q₁ :: rest') := by
  simp only [update_path_coordinates_with_angle, hw, if_neg h0]
  rw [if_neg (fun hc => absurd hc.2 (not_le.mpr hlt))]

/-- C6: on a tick with `dt >= 0` (and the nonnegative acceleration the
engine is configured with), if there is no collision event the current
speed moves toward the desired speed by exactly
`min(acceleration * dt, |desired - current|)` — so the gap to the desired
speed shrinks by exactly that amount and is never overshot — and if there
is a collision event the current speed becomes exactly `0`. -/
theorem c6_engine_update (e : Engine) (m : ShipRef) (timedelta : ℚ)
    (hacc : 0 ≤ e.acceleration) (hdt : 0 ≤ timedelta) :
    (m.collision_event = true → (e.update m timedelta).current_speed = 0) ∧
    (m.collision_event = false →
      |(e.update m timedelta).current_speed - m.current_speed| =
        min (e.acceleration * timedelta) |e.desired_speed - m.current_speed| ∧
      |e.desired_speed - (e.update m timedelta).current_speed| =
        |e.desired_speed - m.current_speed| -
          min (e.acceleration * timedelta) |e.desired_speed - m.current_speed|) := by
  have hat : 0 ≤ e.acceleration * timedelta := mul_nonneg hacc hdt
  constructor
  · intro hc
    simp [Engine.update, hc]
  · intro hc
    by_cases hne : m.current_speed = e.desired_speed
    · have hupd : e.update m timedelta = m := by
        simp [Engine.update, hc, hne]
      rw [hupd, hne]
      simp [min_eq_right hat]
    · have hupd : (e.update m timedelta).current_speed =
          if e.desired_speed - m.current_speed > 0 then
            m.current_speed +
              min (e.acceleration * timedelta) |e.desired_speed - m.current_speed|
          else
            m.current_speed -
              min (e.acceleration * timedelta) |e.desired_speed - m.current_speed| := by
        simp only [Engine.update, hc, Bool.false_eq_true, not_false_eq_true,
          if_true, ne_eq, hne, if_false]
        rw [apply_ite ShipRef.current_speed]
      have hchpos : 0 ≤ min (e.acceleration * timedelta) |e.desired_speed - m.current_speed| :=
        le_min hat (abs_nonneg _)
      have hchle : min (e.acceleration * timedelta) |e.desired_speed - m.current_speed| ≤
          |e.desired_speed - m.current_speed| := min_le_right _ _
      rcases lt_or_gt_of_ne (sub_ne_zero.mpr (Ne.symm hne)) with hD | hD
      · rw [hupd, if_neg (by linarith)]
        have habs : |e.desired_speed - m.current_speed| =
            -(e.desired_speed - m.current_speed) := abs_of_neg hD
        constructor
        · rw [show m.current_speed -
              min (e.acceleration * timedelta) |e.desired_speed - m.current_speed| -
              m.current_speed =
              -(min (e.acceleration * timedelta) |e.desired_speed - m.current_speed|)
              by ring, abs_neg, abs_of_nonneg hchpos]
        · rw [show e.desired_speed - (m.current_speed -
              min (e.acceleration * timedelta) |e.desired_speed - m.current_speed|) =
              (e.desired_speed - m.current_speed) +
              min (e.acceleration * timedelta) |e.desired_speed - m.current_speed|
              by ring, abs_of_nonpos (by linarith), habs]
          ring
      · rw [hupd, if_pos hD]
        have habs : |e.desired_speed - m.current_speed| =
            e.desired_speed - m.current_speed := abs_of_pos hD
        constructor
        · rw [show m.current_speed +
              min (e.acceleration * timedelta) |e.desired_speed - m.current_speed| -
              m.current_speed =
              min (e.acceleration * timedelta) |e.desired_speed - m.current_speed|
              by ring, abs_of_nonneg hchpos]
        · rw [show e.desired_speed - (m.current_speed +
              min (e.acceleration * timedelta) |e.desired_speed - m.current_speed|) =
              (e.desired_speed - m.current_speed) -
              min (e.acceleration * timedelta) |e.desired_speed - m.current_speed|
              by ring, abs_of_nonneg (by linarith), habs]

/-- C6 witness: for the engine as configured by `setup` (`acceleration =
1/2`, `desired_speed = 15`), a tick at `dt = 1` from speed `0` without a
collision moves the speed by exactly `min(1/2, 15)`, and a tick from
speed `7` with a collision event forces speed `0`. -/
theorem c6_witness :
    (0:ℚ) ≤ Engine.setup.acceleration ∧ (0:ℚ) ≤ (1:ℚ) ∧
    (Engine.setup.update ⟨7, true⟩ 1).current_speed = 0 ∧
    |(Engine.setup.update ⟨0, false⟩ 1).current_speed - (0:ℚ)| =
      min (Engine.setup.acceleration * 1) |Engine.setup.desired_speed - (0:ℚ)| :=
  ⟨by norm_num [Engine.setup], by norm_num,
    (c6_engine_update Engine.setup ⟨7, true⟩ 1 (by norm_num [Engine.setup])
      (by norm_num)).1 rfl,
    ((c6_engine_update Engine.setup ⟨0, false⟩ 1 (by norm_num [Engine.setup])
      (by norm_num)).2 rfl).1⟩

/-- C7: `set_speed(v)` updates `desired_speed` to `v` exactly when
`min_speed <= v <= max_speed`, leaving every other field unchanged, and is
a no-op otherwise; in particular `set_speed(1000)` on the engine as
configured (`max_speed = 15`) leaves the engine unchanged. -/
theorem c7_set_speed (e : Engine) (v : ℚ) :
    (e.min_speed ≤ v ∧ v ≤ e.max_speed →
      e.set_speed v = { e with desired_speed := v }) ∧
    (¬ (e.min_speed ≤ v ∧ v ≤ e.max_speed) → e.set_speed v = e) ∧
    Engine.setup.set_speed 1000 = Engine.setup := by
  refine ⟨fun h => ?_, fun h => ?_, ?_⟩
  · rw [Engine.set_speed, if_pos h]
  · rw [Engine.set_speed, if_neg h]
  · rfl

/-- C7 witness: an in-range command `set_speed(10)` updates
`desired_speed`, and the out-of-range `set_speed(1000)` is a no-op. -/
theorem c7_witness :
    (Engine.setup.min_speed ≤ (10:ℚ) ∧ (10:ℚ) ≤ Engine.setup.max_speed) ∧
    Engine.setup.set_speed 10 = { Engine.setup with desired_speed := 10 } ∧
    ¬ (Engine.setup.min_speed ≤ (1000:ℚ) ∧ (1000:ℚ) ≤ Engine.setup.max_speed) ∧
    Engine.setup.set_speed 1000 = Engine.setup :=
  ⟨by norm_num [Engine.setup],
    (c7_set_speed Engine.setup 10).1 (by norm_num [Engine.setup]),
    by norm_num [Engine.setup],
    (c7_set_speed Engine.setup 1000).2.2⟩

/-- A key found in an association list is still found after appending
further entries. -/
theorem lookup_isSome_append {α β : Type} [BEq α] {l l₂ : List (α × β)} {a : α}
    (h : (l.lookup a).isSome = true) : ((l ++ l₂).lookup a).isSome = true := by
  induction l with
  | nil => simp [List.lookup] at h
  | cons x xs ih =>
    obtain ⟨k, v⟩ := x
    rw [List.cons_append]
    simp only [List.lookup] at h ⊢
    cases hak : a == k with
    | true => simp [hak]
    | false =>
      rw [hak] at h
      simp only [cond_false] at h ⊢
      exact ih h

/-- The registration loop of `attach_system` raises whenever some
declared command token is already present in the registry it started
from. -/
theorem register_commands_error {registry : List (String × String)}
    {system_name : String} {cmds : List String}
    (h : ∃ c ∈ cmds, (registry.lookup c).isSome = true) :
    ∃ e, register_commands registry system_name cmds = Except.error e := by
  induction cmds generalizing registry with
  | nil =>
    obtain ⟨c, hc, _⟩ := h
    cases hc
  | cons c cs ih =>
    rw [register_commands]
    by_cases hdup : (registry.lookup c).isSome = true
    · rw [if_pos hdup]
      exact ⟨c, rfl⟩
    · rw [if_neg hdup]
      obtain ⟨c', hc', hs⟩ := h
      rcases List.mem_cons.mp hc' with rfl | hmem
      · exact absurd hs hdup
      · exact ih ⟨c', hmem, lookup_isSome_append hs⟩

/-- C8: attaching a subsystem one of whose declared command tokens is
already present in the ship's command registry raises the duplicate
command `KeyError` synchronously, during `attach_system` itself. -/
theorem c8_duplicate_command (m : ShipModel) (system_name : String)
    (sys : Subsystem) (c : String) (hc : c ∈ sys.commands)
    (hdup : (m.command_registry.lookup c).isSome = true) :
    isErr (m.attach_system system_name sys) = true := by
  obtain ⟨e, he⟩ := @register_commands_error m.command_registry
    system_name sys.commands ⟨c, hc, hdup⟩
  simp only [ShipModel.attach_system]
  rw [he]
  rfl

/-- C8 witness: after attaching a `Weapons` system declaring `FIRE` to a
fresh ship model, attaching a second subsystem that also declares `FIRE`
fails. -/
theorem c8_witness :
    ShipModel.init.attach_system "Weapons" ⟨[], ["FIRE"]⟩ =
      Except.ok ⟨[("Weapons", ⟨[], ["FIRE"]⟩)], [("FIRE", "Weapons")], none⟩ ∧
    "FIRE" ∈ (⟨[], ["FIRE"]⟩ : Subsystem).commands ∧
    ((⟨[("Weapons", ⟨[], ["FIRE"]⟩)], [("FIRE", "Weapons")], none⟩ :
      ShipModel).command_registry.lookup "FIRE").isSome = true ∧
    isErr (ShipModel.attach_system
      ⟨[("Weapons", ⟨[], ["FIRE"]⟩)], [("FIRE", "Weapons")], none⟩
      "Weapons2" ⟨[], ["FIRE"]⟩) = true :=
  ⟨rfl, by simp, rfl,
    c8_duplicate_command _ "Weapons2" ⟨[], ["FIRE"]⟩ "FIRE" (by simp) rfl⟩

/-- C10: after the collision scan of `BattleshipModel.update`, a
collision event implies a collision warning: the minimum-safe-area region
is the hull buffered outward by the positive clearance 100, so any
obstacle meeting the transformed hull also meets the transformed safety
region under the shared world-frame transform `T`. -/
theorem c10_event_implies_warning (T : Point → Point) (hull : Set Point)
    (obstacles : List (Set Point))
    (hev : (collision_flags T hull obstacles).2) :
    (collision_flags T hull obstacles).1 := by
  obtain ⟨ob, hob, z, hz1, hz2⟩ := hev
  obtain ⟨p, hp, rfl⟩ := hz1
  refine ⟨ob, hob, T p, ⟨p, ?_, rfl⟩, hz2⟩
  show ∃ p' ∈ hull, segLen p' p ≤ MINIMUM_SAFE_DISTANCE
  exact ⟨p, hp, by rw [segLen_self]; norm_num [MINIMUM_SAFE_DISTANCE]⟩

/-- C10 witness: with the identity transform, a one-point hull region and
that same region as the single obstacle, the collision event flag holds
and, by the theorem, so does the collision warning flag. -/
theorem c10_witness :
    (collision_flags id {((0:ℝ), (0:ℝ))} [{((0:ℝ), (0:ℝ))}]).2 ∧
    (collision_flags id {((0:ℝ), (0:ℝ))} [{((0:ℝ), (0:ℝ))}]).1 := by
  have hev : (collision_flags id {((0:ℝ), (0:ℝ))} [{((0:ℝ), (0:ℝ))}]).2 := by
    refine ⟨{((0:ℝ), (0:ℝ))}, by simp, ((0:ℝ), (0:ℝ)), ?_, rfl⟩
    exact ⟨((0:ℝ), (0:ℝ)), rfl, rfl⟩
  exact ⟨hev, c10_event_implies_warning _ _ _ hev⟩

/-- C1: evaluation at the claim's own inputs.  The termination branch
returns `current_pos` — the start of the final segment — rather than the
final waypoint: `(0,0)` instead of `(10,0)` on the first input, and
`(10,0)` instead of `(10,10)` on the second, each with an empty
remaining path. -/
theorem c1_termination_eval :
    update_path_coordinates_with_angle [((0:ℝ), (0:ℝ)), (10, 0)] 10 1 =
      some (0, 0, 0, []) ∧
    update_path_coordinates_with_angle [((0:ℝ), (0:ℝ)), (10, 0), (10, 10)] 100 1 =
      some (10, 0, 0, []) ∧
    ((0:ℝ) ≠ (10:ℝ)) :=
  ⟨updatePath_arrive_eval, updatePath_carry_eval, by norm_num⟩

/-- C2 counterexample: on path `[(0,0),(0,10)]`, speed 1, dt 1 the code
returns facing angle `90`, while the claimed convention
`(degrees(atan2(dy,dx)) - 90) mod 360` — the source's
`calculate_angle_degrees` — gives `0` for the same (northward) segment. -/
theorem c2_counterexample :
    update_path_coordinates_with_angle [((0:ℝ), (0:ℝ)), (0, 10)] 1 1 =
      some (0, 1, 90, [(0, 1), (0, 10)]) ∧
    calculate_angle_degrees 0 0 0 10 = 0 ∧ (90:ℝ) ≠ 0 :=
  ⟨updatePath_vertical_eval, calculate_angle_degrees_north, by norm_num⟩

/-- C2 witness: the amended statement applied to the concrete run on path
`[(0,0),(0,10)]`, speed 1, dt 1, whose returned angle is `90`. -/
theorem c2_witness :
    (90:ℝ) = rmod (degOfRad (atan2 ((10:ℝ) - (0:ℝ)) ((0:ℝ) - (0:ℝ)))) 360 :=
  c2_facing_angle_first_segment ((0:ℝ), (0:ℝ)) ((0:ℝ), (10:ℝ)) [] 1 1 0 1 90
    [(0, 1), (0, 10)] updatePath_vertical_eval

/-- C3: a zero-length segment is not skipped: the direction-vector
computation divides by zero and the call raises (`none`), both when the
zero-length segment is the first one and when the walk pops into one. -/
theorem c3_zero_length_segment_eval :
    update_path_coordinates_with_angle [((0:ℝ), (0:ℝ)), (0, 0)] 1 1 = none ∧
    update_path_coordinates_with_angle
      [((0:ℝ), (0:ℝ)), (10, 0), (10, 0), (10, 10)] 100 1 = none :=
  ⟨updatePath_zeroseg_eval, updatePath_zeroseg_mid_eval⟩

/-- C4: handling `ADD_WAYPOINT` dispatches to the undefined
`set_waypoint` attribute and raises `AttributeError` (`none`), appending
nothing; the defined method `add_waypoint` — which `handle_command` never
calls — is what appends the waypoint. -/
theorem c4_add_waypoint_command_eval :
    Navigation.setup.handle_command "ADD_WAYPOINT" 0 0 = none ∧
    Navigation.setup.add_waypoint 0 0 = ⟨[(0, 0)], []⟩ :=
  ⟨rfl, rfl⟩

/-- C5: the attribute surface does not round-trip.  On a freshly
constructed model `set_attribute` raises `AttributeError` because
`__init__` never creates `self.attributes`; and even on a model given an
empty `attributes` table, `get_attribute` after `set_attribute(…, 10)`
returns the subsystem object's own field (`15`), not the value written
(`10`), because the two methods use different stores. -/
theorem c5_attribute_surface_eval :
    ShipModel.init.attributes = none ∧
    ShipModel.set_attribute
      ⟨[("Engine", ⟨[("desired_speed", 15)], ["SET_SPEED"]⟩)], [], none⟩
      "Engine" "desired_speed" 10 = none ∧
    (ShipModel.set_attribute
      ⟨[("Engine", ⟨[("desired_speed", 15)], ["SET_SPEED"]⟩)], [], some []⟩
      "Engine" "desired_speed" 10).bind
      (fun m' => m'.get_attribute "Engine" "desired_speed") = some 15 ∧
    (15:ℚ) ≠ 10 :=
  ⟨rfl, rfl, rfl, by norm_num⟩

/-- Evaluation of the walk on `[(0,0),(10,0),(10,10)]` with distance 5:
the first segment (length 10) is not fully covered, so nothing is
consumed. -/
theorem walk_partial_eval :
    walk [((0:ℝ), (0:ℝ)), (10, 0), (10, 10)] (5 * 1) =
      some ([((0:ℝ), (0:ℝ)), (10, 0), (10, 10)], 5 * 1) := by
  rw [walk, segLen_east, if_neg (by norm_num)]

/-- C9 witness: the partial-step theorem applied to path
`[(0,0),(10,0),(10,10)]`, speed 5, dt 1 gives position `(5,0)` and
remaining path `[(5,0),(10,0),(10,10)]`. -/
theorem c9_witness :
    update_path_coordinates_with_angle [((0:ℝ), (0:ℝ)), (10, 0), (10, 10)] 5 1 =
      some (5, 0, 0, [(5, 0), (10, 0), (10, 10)]) := by
  have h := c9_partial_step ((0:ℝ), (0:ℝ)) ((10:ℝ), (0:ℝ)) [((10:ℝ), (10:ℝ))]
    5 1 ((0:ℝ), (0:ℝ)) ((10:ℝ), (0:ℝ)) [((10:ℝ), (10:ℝ))] (5 * 1)
    (by norm_num) (by norm_num)
    (by rw [segLen_east]; norm_num)
    walk_partial_eval
    (by rw [segLen_east]; norm_num)
  rw [h]
  norm_num [segLen_east, segLen_east_zero, angle_east]
